import Mathlib

/-!
Verification of the Tonality backend (backendScripts/database.py and
backendScripts/main.py).

The relational store is embedded as lists of rows, one list per table, inside
a `DB` record.  ORM operations are translated as follows:

* a SELECT ... WHERE with `.first()` becomes `List.filter` followed by `head?`;
* `session.get(Model, pk)` (primary-key lookup) becomes `List.find?` on the id;
* mutating a fetched row and committing becomes an id-keyed map over the table
  (`updateById`);
* inserting a row and committing becomes an append, with the auto-increment
  primary key drawn from a per-table counter in `DB`;
* a commit that can raise `IntegrityError` (foreign-key violation on MySQL)
  is modelled by checking the referenced rows and, on failure, returning the
  original `DB` (rollback) together with `none`, exactly as the Python
  functions return `None` after `session.rollback()`.

Timestamps (`created_at`, `joined_at`, `voted_at`) are carried by no claim and
are omitted from the row records; `Poll.ends_at` is kept because the voting
claims mention it.  Wall-clock instants are integers counting seconds.
-/

namespace Tonality

/-! ## Data model (database.py, classes Users .. PollVote) -/

structure Users where
  id : Nat
  spotify_refresh_token : Option String
  username : String
  password_hash : String
  is_online : Bool
  show_listening_activity : Bool
  allow_friend_requests : Bool
deriving Repr, DecidableEq

structure Friendship where
  id : Nat
  user_id : Nat
  friend_id : Nat
  status : String
deriving Repr, DecidableEq

structure Community where
  id : Nat
  name : String
  description : Option String
  member_count : Int
  icon_name : String
deriving Repr, DecidableEq

structure CommunityMembership where
  id : Nat
  user_id : Nat
  community_id : Nat
deriving Repr, DecidableEq

structure Poll where
  id : Nat
  community_id : Nat
  title : String
  description : Option String
  ends_at : Int
  is_active : Bool
deriving Repr, DecidableEq

structure PollOption where
  id : Nat
  poll_id : Nat
  song_name : String
  artist_name : String
  spotify_uri : Option String
  votes : Int
deriving Repr, DecidableEq

structure PollVote where
  id : Nat
  poll_id : Nat
  user_id : Nat
  option_id : Nat
deriving Repr, DecidableEq

/-- The relational store: one list of rows per table, plus the auto-increment
counters of the tables that the verified operations insert into. -/
structure DB where
  users : List Users
  friendships : List Friendship
  communities : List Community
  memberships : List CommunityMembership
  polls : List Poll
  polloptions : List PollOption
  pollvotes : List PollVote
  users_next_id : Nat
  friendship_next_id : Nat
  membership_next_id : Nat
  pollvote_next_id : Nat
deriving Repr, DecidableEq

/-- SQL UPDATE ... WHERE key = i semantics: rewrite every row whose key
matches `i` with `g`. -/
def updateById {α : Type} (l : List α) (key : α → Nat) (i : Nat) (g : α → α) : List α :=
  l.map (fun x => if key x == i then g x else x)

/-! ## database.py operations -/

/-- database.py, get_user_by_username. -/
def get_user_by_username (db : DB) (username : String) : Option Users :=
  (db.users.filter (fun u => u.username == username)).head?

/-- database.py, add_user: insert a Users row; the commit raises
IntegrityError (unique username index) when the username is taken, in which
case the session is rolled back and None returned. -/
def add_user (db : DB) (username : String) (password_hash : String) : Option Users × DB :=
  let user : Users :=
    { id := db.users_next_id, spotify_refresh_token := none, username := username,
      password_hash := password_hash, is_online := true,
      show_listening_activity := true, allow_friend_requests := true }
  if db.users.any (fun u => u.username == username) then
    (none, db)
  else
    (some user, { db with users := db.users ++ [user], users_next_id := db.users_next_id + 1 })

/-- database.py, add_friend: insert the friendship and its reverse, both with
the model default status "accepted"; the commit raises IntegrityError when a
foreign key (either user id) does not resolve. -/
def add_friend (db : DB) (user_id : Nat) (friend_id : Nat) : Option Friendship × DB :=
  let friendship : Friendship :=
    { id := db.friendship_next_id, user_id := user_id, friend_id := friend_id, status := "accepted" }
  let reverse : Friendship :=
    { id := db.friendship_next_id + 1, user_id := friend_id, friend_id := user_id, status := "accepted" }
  if db.users.any (fun u => u.id == user_id) && db.users.any (fun u => u.id == friend_id) then
    (some friendship,
     { db with friendships := db.friendships ++ [friendship, reverse],
               friendship_next_id := db.friendship_next_id + 2 })
  else
    (none, db)

/-- database.py, join_community: insert the membership row (first commit;
IntegrityError on a dangling foreign key rolls back and returns None), then
fetch the community and increment its member_count (second commit). -/
def join_community (db : DB) (user_id : Nat) (community_id : Nat) :
    Option CommunityMembership × DB :=
  let membership : CommunityMembership :=
    { id := db.membership_next_id, user_id := user_id, community_id := community_id }
  if db.users.any (fun u => u.id == user_id) &&
     db.communities.any (fun c => c.id == community_id) then
    let db1 : DB :=
      { db with memberships := db.memberships ++ [membership],
                membership_next_id := db.membership_next_id + 1 }
    let db2 : DB :=
      { db1 with communities :=
          (updateById db1.communities (fun c => c.id) community_id
            (fun c => { c with member_count := c.member_count + 1 })) }
    (some membership, db2)
  else
    (none, db)

/-- database.py, leave_community: delete the first matching membership row if
any, floor the member_count decrement at zero, and report success. -/
def leave_community (db : DB) (user_id : Nat) (community_id : Nat) : Bool × DB :=
  match (db.memberships.filter
          (fun m => m.user_id == user_id && m.community_id == community_id)).head? with
  | some membership =>
      let db1 : DB :=
        { db with memberships := db.memberships.filter (fun m => !(m.id == membership.id)) }
      let db2 : DB :=
        { db1 with communities :=
            (updateById db1.communities (fun c => c.id) community_id
              (fun c => { c with member_count := max 0 (c.member_count - 1) })) }
      (true, db2)
  | none => (false, db)

/-- database.py, vote_on_poll.  If the user already has a vote row on the poll
the first such row is updated in place (decrementing the old option, if it
still exists, and pointing the row at the new option); otherwise a fresh vote
row is inserted.  The new option, when it exists, is incremented.  The final
commit raises IntegrityError exactly when a foreign key of the written vote
row does not resolve: on the update path that is the new option id, on the
insert path the user, poll and option ids. -/
def vote_on_poll (db : DB) (user_id : Nat) (poll_id : Nat) (option_id : Nat) :
    Option PollVote × DB :=
  match (db.pollvotes.filter
          (fun v => v.user_id == user_id && v.poll_id == poll_id)).head? with
  | some existing_vote =>
      let opts1 : List PollOption :=
        if db.polloptions.any (fun o => o.id == existing_vote.option_id) then
          updateById db.polloptions (fun o => o.id) existing_vote.option_id
            (fun o => { o with votes := o.votes - 1 })
        else db.polloptions
      let votes1 : List PollVote :=
        updateById db.pollvotes (fun v => v.id) existing_vote.id
          (fun v => { v with option_id := option_id })
      let opts2 : List PollOption :=
        if opts1.any (fun o => o.id == option_id) then
          updateById opts1 (fun o => o.id) option_id
            (fun o => { o with votes := o.votes + 1 })
        else opts1
      if db.polloptions.any (fun o => o.id == option_id) then
        (some { existing_vote with option_id := option_id },
         { db with polloptions := opts2, pollvotes := votes1 })
      else
        (none, db)
  | none =>
      let vote : PollVote :=
        { id := db.pollvote_next_id, poll_id := poll_id, user_id := user_id,
          option_id := option_id }
      let opts2 : List PollOption :=
        if db.polloptions.any (fun o => o.id == option_id) then
          updateById db.polloptions (fun o => o.id) option_id
            (fun o => { o with votes := o.votes + 1 })
        else db.polloptions
      if db.users.any (fun u => u.id == user_id) &&
         db.polls.any (fun p => p.id == poll_id) &&
         db.polloptions.any (fun o => o.id == option_id) then
        (some vote,
         { db with pollvotes := db.pollvotes ++ [vote],
                   pollvote_next_id := db.pollvote_next_id + 1,
                   polloptions := opts2 })
      else
        (none, db)

/-- Total number of recorded votes over the options of one poll. -/
def pollTally (db : DB) (poll_id : Nat) : Int :=
  ((db.polloptions.filter (fun o => o.poll_id == poll_id)).map (fun o => o.votes)).sum

/-! ## HTTP layer (main.py)

A handler either raises an `HTTPException` (modelled as `Except.error`) or
returns normally; in both cases it leaves the store in some state, so every
handler returns the resulting `DB` alongside the `Except`.  Raising before a
commit leaves the store unchanged, which the embedding makes explicit by
pairing the error with the untouched `db`. -/

structure HTTPError where
  status_code : Nat
  detail : String
deriving Repr, DecidableEq

/-- main.py, BCRYPT_MAX_PASSWORD_BYTES. -/
def BCRYPT_MAX_PASSWORD_BYTES : Nat := 72

/-- main.py, register (POST /api/register).  The password hash function
(passlib bcrypt) is abstracted as a parameter.  Note the order: the password
length is validated (400) before the duplicate-username conflict (409) is
raised, exactly as in the source. -/
def register (hash : String → String) (db : DB) (username : String) (password : String) :
    Except HTTPError Users × DB :=
  let existing_user := get_user_by_username db username
  if password.utf8ByteSize > BCRYPT_MAX_PASSWORD_BYTES then
    (.error { status_code := 400,
              detail := "Password too long (bcrypt max is 72 bytes). Use a shorter password." }, db)
  else
    let hashed_password := hash password
    match existing_user with
    | some _ => (.error { status_code := 409, detail := "User already exists" }, db)
    | none =>
      match add_user db username hashed_password with
      | (none, db1) => (.error { status_code := 500, detail := "User registration failed" }, db1)
      | (some user, db1) => (.ok user, db1)

/-- main.py, send_friend_request, shared tail after the existing-row check:
the incoming-pending check and the insert of the pending row.  The inserted
row references the authenticated caller and a user already fetched from the
store, so its commit succeeds. -/
def sendRequestTail (db : DB) (user : Users) (user_id : Nat) : Except HTTPError Nat × DB :=
  match (db.friendships.filter
          (fun f => f.user_id == user_id && f.friend_id == user.id && f.status == "pending")).head? with
  | some _ =>
      (.error { status_code := 400,
                detail := "This user has already sent you a request. Accept it instead!" }, db)
  | none =>
      let friendship : Friendship :=
        { id := db.friendship_next_id, user_id := user.id, friend_id := user_id,
          status := "pending" }
      (.ok friendship.id,
       { db with friendships := db.friendships ++ [friendship],
                 friendship_next_id := db.friendship_next_id + 1 })

/-- main.py, send_friend_request (POST /api/friends/request/user_id).  When an
existing row from the caller to the target has a status other than accepted or
pending, the Python if and elif both fall through and execution continues. -/
def send_friend_request (db : DB) (user : Users) (user_id : Nat) : Except HTTPError Nat × DB :=
  if user_id == user.id then
    (.error { status_code := 400, detail := "Cannot send friend request to yourself" }, db)
  else
    match db.users.find? (fun t => t.id == user_id) with
    | none => (.error { status_code := 404, detail := "User not found" }, db)
    | some target =>
      if !target.allow_friend_requests then
        (.error { status_code := 403, detail := "User is not accepting friend requests" }, db)
      else
        match (db.friendships.filter
                (fun f => f.user_id == user.id && f.friend_id == user_id)).head? with
        | some existing =>
          if existing.status == "accepted" then
            (.error { status_code := 400, detail := "Already friends with this user" }, db)
          else if existing.status == "pending" then
            (.error { status_code := 400, detail := "Friend request already sent" }, db)
          else
            sendRequestTail db user user_id
        | none =>
            sendRequestTail db user user_id

/-- main.py, accept_friend_request (POST /api/friends/requests/request_id/accept). -/
def accept_friend_request (db : DB) (user : Users) (request_id : Nat) :
    Except HTTPError Unit × DB :=
  match db.friendships.find? (fun f => f.id == request_id) with
  | none => (.error { status_code := 404, detail := "Friend request not found" }, db)
  | some friendship =>
    if friendship.friend_id != user.id then
      (.error { status_code := 403, detail := "This request is not for you" }, db)
    else if friendship.status != "pending" then
      (.error { status_code := 400, detail := "Request is not pending" }, db)
    else
      let reverse : Friendship :=
        { id := db.friendship_next_id, user_id := user.id, friend_id := friendship.user_id,
          status := "accepted" }
      (.ok (),
       { db with friendships :=
                   ((updateById db.friendships (fun f => f.id) request_id
                     (fun f => { f with status := "accepted" })) ++ [reverse]),
                 friendship_next_id := db.friendship_next_id + 1 })

/-- main.py, reject_friend_request (POST /api/friends/requests/request_id/reject):
the pending row is deleted by primary key. -/
def reject_friend_request (db : DB) (user : Users) (request_id : Nat) :
    Except HTTPError Unit × DB :=
  match db.friendships.find? (fun f => f.id == request_id) with
  | none => (.error { status_code := 404, detail := "Friend request not found" }, db)
  | some friendship =>
    if friendship.friend_id != user.id then
      (.error { status_code := 403, detail := "This request is not for you" }, db)
    else if friendship.status != "pending" then
      (.error { status_code := 400, detail := "Request is not pending" }, db)
    else
      (.ok (), { db with friendships := db.friendships.filter (fun f => !(f.id == request_id)) })

/-- main.py, cancel_friend_request (DELETE /api/friends/requests/request_id). -/
def cancel_friend_request (db : DB) (user : Users) (request_id : Nat) :
    Except HTTPError Unit × DB :=
  match db.friendships.find? (fun f => f.id == request_id) with
  | none => (.error { status_code := 404, detail := "Friend request not found" }, db)
  | some friendship =>
    if friendship.user_id != user.id then
      (.error { status_code := 403, detail := "This is not your request" }, db)
    else if friendship.status != "pending" then
      (.error { status_code := 400, detail := "Request is not pending" }, db)
    else
      (.ok (), { db with friendships := db.friendships.filter (fun f => !(f.id == request_id)) })

/-- main.py, add_friend_endpoint (POST /api/friends/friend_id): the legacy
direct add, which delegates to database.add_friend with no pending stage and
no allow_friend_requests check. -/
def add_friend_endpoint (db : DB) (user : Users) (friend_id : Nat) :
    Except HTTPError Unit × DB :=
  if friend_id == user.id then
    (.error { status_code := 400, detail := "Cannot add yourself as friend" }, db)
  else
    match add_friend db user.id friend_id with
    | (none, db1) => (.error { status_code := 400, detail := "Failed to add friend" }, db1)
    | (some _, db1) => (.ok (), db1)

/-- main.py, join_community_endpoint (POST /api/communities/community_id/join).
The endpoint ignores the return value of database.join_community. -/
def join_community_endpoint (db : DB) (user : Users) (community_id : Nat) :
    Except HTTPError Unit × DB :=
  match db.communities.find? (fun c => c.id == community_id) with
  | none => (.error { status_code := 404, detail := "Community not found" }, db)
  | some _ =>
    match (db.memberships.filter
            (fun m => m.user_id == user.id && m.community_id == community_id)).head? with
    | some _ =>
        (.error { status_code := 400, detail := "Already a member of this community" }, db)
    | none =>
        let r := join_community db user.id community_id
        (.ok (), r.2)

/-- main.py, vote_on_poll_endpoint (POST /api/polls/poll_id/vote). -/
def vote_on_poll_endpoint (db : DB) (user : Users) (poll_id : Nat) (option_id : Nat) :
    Except HTTPError Unit × DB :=
  match vote_on_poll db user.id poll_id option_id with
  | (none, db1) => (.error { status_code := 400, detail := "Failed to vote" }, db1)
  | (some _, db1) => (.ok (), db1)

/-! ## Session issuer (main.py: create_access_token, get_current_user)

JWTs are embedded symbolically: a token records the claims it carries and the
key it was signed with.  Decoding with a key succeeds exactly when the keys
match (signature check) and the exp claim lies in the future; PyJWT treats a
token as expired when exp is less than or equal to the current instant.  Both
outcomes of a failed decode (InvalidSignatureError, ExpiredSignatureError)
are subclasses of PyJWTError, which is what get_current_user catches. -/

structure JWTPayload where
  sub : Option String
  exp : Int
deriving Repr, DecidableEq

structure JWToken where
  payload : JWTPayload
  signed_with : String
deriving Repr, DecidableEq

inductive PyJWTError where
  | invalidSignature
  | expiredSignature
deriving Repr, DecidableEq

def jwt_encode (payload : JWTPayload) (key : String) : JWToken :=
  { payload := payload, signed_with := key }

def jwt_decode (token : JWToken) (key : String) (now : Int) : Except PyJWTError JWTPayload :=
  if token.signed_with != key then .error .invalidSignature
  else if token.payload.exp ≤ now then .error .expiredSignature
  else .ok token.payload

/-- main.py, ACCESS_TOKEN_EXPIRE_MINUTES environment default. -/
def ACCESS_TOKEN_EXPIRE_MINUTES : Int := 5256000

/-- main.py, create_access_token.  The data dict is always of the shape
set sub to a username; expires_delta is a timedelta in seconds, and Python
treats a zero timedelta as falsy, falling back to the configured default. -/
def create_access_token (sub : Option String) (expires_delta : Option Int) (now : Int)
    (secret : String) : JWToken :=
  let expire : Int :=
    match expires_delta with
    | some d => if d != 0 then now + d else now + ACCESS_TOKEN_EXPIRE_MINUTES * 60
    | none => now + ACCESS_TOKEN_EXPIRE_MINUTES * 60
  jwt_encode { sub := sub, exp := expire } secret

/-- main.py, get_current_user: decode the bearer token, map every PyJWTError
and a missing sub claim to 401, then resolve the subject to a Users row,
mapping an unknown subject to a 400. -/
def get_current_user (db : DB) (token : JWToken) (now : Int) (secret : String) :
    Except HTTPError Users :=
  let credentials_exception : HTTPError :=
    { status_code := 401, detail := "Could not validate credentials" }
  match jwt_decode token secret now with
  | .error _ => .error credentials_exception
  | .ok payload =>
    match payload.sub with
    | none => .error credentials_exception
    | some username =>
      match get_user_by_username db username with
      | none => .error { status_code := 400, detail := "User not found" }
      | some user => .ok user

/-! ## External token broker (main.py: _access_token_cache, get_spotify_access_token)

The process-wide dict _access_token_cache, keyed by user id and holding
(access token, expiry timestamp) pairs, is embedded as an association list.
The single outbound POST to the provider token endpoint is modelled by a
response parameter describing what the endpoint would answer, together with
an outbound_calls counter in the result recording whether the call was made. -/

abbrev TokenCache := List (Nat × String × Int)

/-- Python dict lookup _access_token_cache.get(user_id). -/
def cacheLookup (cache : TokenCache) (uid : Nat) : Option (String × Int) :=
  ((cache.filter (fun e => e.1 == uid)).head?).map (fun e => e.2)

/-- Python dict assignment _access_token_cache[user_id] = (token, expiry). -/
def cacheStore (cache : TokenCache) (uid : Nat) (tok : String) (expiry : Int) : TokenCache :=
  if cache.any (fun e => e.1 == uid) then
    cache.map (fun e => if e.1 == uid then (uid, tok, expiry) else e)
  else
    cache ++ [(uid, tok, expiry)]

/-- The provider token endpoint response: HTTP status and the optional JSON
fields read by the code. -/
structure TokenResponse where
  status_code : Nat
  access_token : Option String
  expires_in : Option Int
  refresh_token : Option String
deriving Repr, DecidableEq

/-- Python truthiness of an optional int (None and 0 are falsy). -/
def pyTruthyNat : Option Nat → Bool
  | none => false
  | some n => n != 0

/-- Python truthiness of an optional string (None and the empty string are falsy). -/
def pyTruthyStr : Option String → Bool
  | none => false
  | some s => s != ""

/-- The state get_spotify_access_token returns: its result value, the cache
and store it leaves behind, and how many outbound refresh calls it made. -/
structure SpotifyResult where
  token : Option String
  cache : TokenCache
  db : DB
  outbound_calls : Nat
deriving Repr, DecidableEq

/-- The cache-check prologue of get_spotify_access_token: when a user_id was
given (and is truthy) and the cached entry has more than the 300 second
buffer remaining, the cached token. -/
def spotifyCacheHit (cache : TokenCache) (user_id : Option Nat) (now : Int) : Option String :=
  if pyTruthyNat user_id then
    match cacheLookup cache (user_id.getD 0) with
    | some (tok, expiry) => if now < expiry - 300 then some tok else none
    | none => none
  else none

/-- main.py, get_spotify_access_token.  Parameters beyond the Python ones:
client_id is the SPOTIFY_CLIENT_ID environment value (empty when not
configured), now is the wall clock, and response is what the provider token
endpoint would answer if called.  has_session records whether a session was
passed (the Python parameter defaults to None). -/
def get_spotify_access_token (cache : TokenCache) (db : DB) (refresh_token : String)
    (user_id : Option Nat) (has_session : Bool) (client_id : String) (now : Int)
    (response : TokenResponse) : SpotifyResult :=
  match spotifyCacheHit cache user_id now with
  | some tok => { token := some tok, cache := cache, db := db, outbound_calls := 0 }
  | none =>
    if client_id == "" then
      { token := none, cache := cache, db := db, outbound_calls := 0 }
    else if response.status_code == 200 then
      let access_token := response.access_token
      let expires_in : Int := response.expires_in.getD 3600
      let cache1 : TokenCache :=
        if pyTruthyNat user_id && pyTruthyStr access_token then
          cacheStore cache (user_id.getD 0) (access_token.getD "") (now + expires_in)
        else cache
      let db1 : DB :=
        if pyTruthyStr response.refresh_token && pyTruthyNat user_id && has_session then
          { db with users :=
              (updateById db.users (fun u => u.id) (user_id.getD 0)
                (fun u => { u with spotify_refresh_token := response.refresh_token })) }
        else db
      { token := access_token, cache := cache1, db := db1, outbound_calls := 1 }
    else
      { token := none, cache := cache, db := db, outbound_calls := 1 }

/-! ## Helper lemmas about the row-update and query embeddings -/

theorem updateById_of_absent {α : Type} (key : α → Nat) (i : Nat) (g : α → α) :
    ∀ l : List α, (∀ b ∈ l, key b ≠ i) → updateById l key i g = l := by
  intro l h
  induction l with
  | nil => rfl
  | cons x xs ih =>
    have hx : (key x == i) = false := by
      simp only [beq_eq_false_iff_ne, ne_eq]
      exact h x (by simp)
    simp only [updateById, List.map_cons, hx, Bool.false_eq_true, if_false]
    have := ih (fun b hb => h b (by simp [hb]))
    simpa [updateById] using this

theorem updateById_map_key {α : Type} (key : α → Nat) (i : Nat) (g : α → α)
    (hkey : ∀ a, key (g a) = key a) (l : List α) :
    (updateById l key i g).map key = l.map key := by
  simp only [updateById, List.map_map]
  apply List.map_congr_left
  intro a _
  by_cases h : (key a == i) = true
  · simp [Function.comp, h, hkey]
  · simp [Function.comp, h]

theorem find?_updateById_self {α : Type} (key : α → Nat) (i : Nat) (g : α → α)
    (hkey : ∀ a, key (g a) = key a) (l : List α) (a : α)
    (h : l.find? (fun x => key x == i) = some a) :
    (updateById l key i g).find? (fun x => key x == i) = some (g a) := by
  have hGp : ((fun x => key x == i) ∘ fun x => if (key x == i) = true then g x else x)
      = fun x => key x == i := by
    funext b
    by_cases hb : (key b == i) = true <;> simp [Function.comp, hb, hkey]
  have ha : (key a == i) = true := by
    have hp := List.find?_some h
    simpa using hp
  simp only [updateById, List.find?_map, hGp, h, Option.map_some']
  rw [if_pos ha]

theorem find?_updateById_ne {α : Type} (key : α → Nat) (i j : Nat) (g : α → α)
    (hkey : ∀ a, key (g a) = key a) (hij : j ≠ i) (l : List α) :
    (updateById l key i g).find? (fun x => key x == j) = l.find? (fun x => key x == j) := by
  have hGp : ((fun x => key x == j) ∘ fun x => if (key x == i) = true then g x else x)
      = fun x => key x == j := by
    funext b
    by_cases hb : (key b == i) = true <;> simp [Function.comp, hb, hkey]
  simp only [updateById, List.find?_map, hGp]
  cases hfind : l.find? (fun x => key x == j) with
  | none => simp
  | some b =>
    have hbj : key b = j := by
      have hp := List.find?_some hfind
      simpa using hp
    have hbi : (key b == i) = false := by simp [hbj, hij]
    simp only [Option.map_some', hbi, Bool.false_eq_true, if_false]

theorem filter_updateById {α : Type} (key : α → Nat) (i : Nat) (g : α → α)
    (q : α → Bool) (hq : ∀ a, q (g a) = q a) (l : List α) :
    (updateById l key i g).filter q = updateById (l.filter q) key i g := by
  have hGq : (q ∘ fun x => if (key x == i) = true then g x else x) = q := by
    funext b
    by_cases hb : (key b == i) = true <;> simp [Function.comp, hb, hq]
  simp only [updateById, List.filter_map, hGq]

theorem sum_filter_updateById {α : Type} (key : α → Nat) (i : Nat) (g : α → α)
    (q : α → Bool) (val : α → Int) (d : Int)
    (hq : ∀ a, q (g a) = q a) (hval : ∀ a, val (g a) = val a + d) :
    ∀ (l : List α) (a : α), (l.map key).Nodup →
      l.find? (fun x => key x == i) = some a → q a = true →
      (((updateById l key i g).filter q).map val).sum = ((l.filter q).map val).sum + d := by
  intro l
  induction l with
  | nil => intro a _ h; simp at h
  | cons x xs ih =>
    intro a hnd hfind hqa
    have hnd1 : (xs.map key).Nodup := (List.nodup_cons.mp (by simpa using hnd)).2
    by_cases hx : (key x == i) = true
    · simp only [List.find?, hx] at hfind
      have hxa : x = a := by simpa using hfind
      subst hxa
      have hix : key x = i := beq_iff_eq.mp hx
      have habs : ∀ b ∈ xs, key b ≠ i := by
        intro b hb hbe
        have hnotin : key x ∉ xs.map key := (List.nodup_cons.mp (by simpa using hnd)).1
        exact hnotin (by rw [hix, ← hbe]; exact List.mem_map_of_mem key hb)
      have hrest : updateById xs key i g = xs := updateById_of_absent key i g xs habs
      simp only [updateById, List.map_cons, hx, if_true]
      simp only [updateById] at hrest
      rw [hrest, List.filter_cons, List.filter_cons, hq, hqa]
      simp only [if_true, List.map_cons, List.sum_cons, hval]
      ring
    · simp only [List.find?, hx] at hfind
      have hrec := ih a hnd1 hfind hqa
      simp only [updateById, List.map_cons, hx, Bool.false_eq_true, if_false,
        List.filter_cons]
      simp only [updateById] at hrec
      by_cases hqx : q x = true
      · simp only [hqx, if_true, List.map_cons, List.sum_cons, hrec]
        ring
      · simp only [hqx, Bool.false_eq_true, if_false, hrec]

theorem any_of_find? {α : Type} {p : α → Bool} {l : List α} {a : α}
    (h : l.find? p = some a) : l.any p = true :=
  List.any_eq_true.mpr ⟨a, List.mem_of_find?_eq_some h, List.find?_some h⟩

end Tonality

namespace Tonality

/-! ## A concrete store used by the witness theorems -/

def aliceRow : Users :=
  { id := 1, spotify_refresh_token := some "rt-alice", username := "alice",
    password_hash := "h1", is_online := true, show_listening_activity := true,
    allow_friend_requests := true }

def bobRow : Users :=
  { id := 2, spotify_refresh_token := none, username := "bob", password_hash := "h2",
    is_online := true, show_listening_activity := true, allow_friend_requests := true }

/-- carol has incoming friend requests disabled. -/
def carolRow : Users :=
  { id := 3, spotify_refresh_token := none, username := "carol", password_hash := "h3",
    is_online := false, show_listening_activity := false, allow_friend_requests := false }

/-- A community with five members recorded in its denormalized counter. -/
def rockRow : Community :=
  { id := 10, name := "Rock Fans", description := none, member_count := 5,
    icon_name := "musical-notes" }

/-- A poll that is inactive and already past its end instant. -/
def pollRow : Poll :=
  { id := 20, community_id := 10, title := "Song of the week", description := none,
    ends_at := -50, is_active := false }

def optionARow : PollOption :=
  { id := 30, poll_id := 20, song_name := "Song A", artist_name := "Artist A",
    spotify_uri := none, votes := 5 }

def optionBRow : PollOption :=
  { id := 31, poll_id := 20, song_name := "Song B", artist_name := "Artist B",
    spotify_uri := none, votes := 7 }

/-- An option attached to a different poll than pollRow. -/
def optionCRow : PollOption :=
  { id := 32, poll_id := 21, song_name := "Song C", artist_name := "Artist C",
    spotify_uri := none, votes := 3 }

/-- alice already voted for option 30 on poll 20. -/
def aliceVoteRow : PollVote :=
  { id := 40, poll_id := 20, user_id := 1, option_id := 30 }

/-- A pending friend request from bob (2) to alice (1). -/
def pendingRow : Friendship :=
  { id := 50, user_id := 2, friend_id := 1, status := "pending" }

/-- bob is a member of community 10. -/
def bobMembershipRow : CommunityMembership :=
  { id := 100, user_id := 2, community_id := 10 }

def sampleDB : DB :=
  { users := [aliceRow, bobRow, carolRow],
    friendships := [pendingRow],
    communities := [rockRow],
    memberships := [bobMembershipRow],
    polls := [pollRow],
    polloptions := [optionARow, optionBRow, optionCRow],
    pollvotes := [aliceVoteRow],
    users_next_id := 4,
    friendship_next_id := 51,
    membership_next_id := 101,
    pollvote_next_id := 41 }

end Tonality

namespace Tonality

/-! ## Claim theorems -/

/-- C3, counterexample: a well-signed, unexpired token whose subject does not
resolve to an existing user is rejected by get_current_user with HTTP status
400 (User not found), not with the 401 authorization status the claim
asserts for every rejection. -/
theorem get_current_user_unknown_subject_cex :
    get_current_user sampleDB
        { payload := { sub := some "ghost", exp := 1000 }, signed_with := "secret" } 0 "secret"
      = .error { status_code := 400, detail := "User not found" } ∧ (400 : Nat) ≠ 401 := by
  constructor
  · rfl
  · decide

/-- C3 (amended): get_current_user rejects a token whose signature does not
verify, a token that is expired, and a token whose payload carries no subject,
each with a 401 authorization error; a token whose subject does not resolve to
an existing user is also rejected, but with a 400 bad-request error rather
than 401. -/
theorem get_current_user_rejections (db : DB) (token : JWToken) (now : Int) (secret : String) :
    (token.signed_with ≠ secret →
      get_current_user db token now secret
        = .error { status_code := 401, detail := "Could not validate credentials" }) ∧
    (token.payload.exp ≤ now →
      get_current_user db token now secret
        = .error { status_code := 401, detail := "Could not validate credentials" }) ∧
    (token.signed_with = secret → now < token.payload.exp → token.payload.sub = none →
      get_current_user db token now secret
        = .error { status_code := 401, detail := "Could not validate credentials" }) ∧
    (∀ username, token.signed_with = secret → now < token.payload.exp →
      token.payload.sub = some username → get_user_by_username db username = none →
      get_current_user db token now secret
        = .error { status_code := 400, detail := "User not found" }) := by
  refine ⟨?_, ?_, ?_, ?_⟩
  · intro h
    have hs : (token.signed_with != secret) = true := by simp [h]
    simp [get_current_user, jwt_decode, hs]
  · intro h
    by_cases hsig : token.signed_with = secret
    · have hs : (token.signed_with != secret) = false := by simp [hsig]
      simp [get_current_user, jwt_decode, hs, h]
    · have hs : (token.signed_with != secret) = true := by simp [hsig]
      simp [get_current_user, jwt_decode, hs]
  · intro hsig hlt hsub
    have hs : (token.signed_with != secret) = false := by simp [hsig]
    simp [get_current_user, jwt_decode, hs, not_le.mpr hlt, hsub]
  · intro username hsig hlt hsub hnone
    have hs : (token.signed_with != secret) = false := by simp [hsig]
    simp [get_current_user, jwt_decode, hs, not_le.mpr hlt, hsub, hnone]

/-- Witness for the amended C3 theorem at concrete inputs: a token signed with
the wrong key, an expired token, a token without a subject, and a token whose
subject is unknown. -/
theorem get_current_user_rejections_witness :
    (get_current_user sampleDB
        { payload := { sub := some "alice", exp := 1000 }, signed_with := "bad" } 0 "secret"
      = .error { status_code := 401, detail := "Could not validate credentials" }) ∧
    (get_current_user sampleDB
        { payload := { sub := some "alice", exp := 0 }, signed_with := "secret" } 5 "secret"
      = .error { status_code := 401, detail := "Could not validate credentials" }) ∧
    (get_current_user sampleDB
        { payload := { sub := none, exp := 1000 }, signed_with := "secret" } 0 "secret"
      = .error { status_code := 401, detail := "Could not validate credentials" }) ∧
    (get_current_user sampleDB
        { payload := { sub := some "ghost", exp := 1000 }, signed_with := "secret" } 0 "secret"
      = .error { status_code := 400, detail := "User not found" }) := by
  refine ⟨?_, ?_, ?_, ?_⟩
  · exact (get_current_user_rejections sampleDB
      { payload := { sub := some "alice", exp := 1000 }, signed_with := "bad" } 0 "secret").1
      (by decide)
  · exact (get_current_user_rejections sampleDB
      { payload := { sub := some "alice", exp := 0 }, signed_with := "secret" } 5 "secret").2.1
      (by decide)
  · exact (get_current_user_rejections sampleDB
      { payload := { sub := none, exp := 1000 }, signed_with := "secret" } 0 "secret").2.2.1
      rfl (by decide) rfl
  · exact (get_current_user_rejections sampleDB
      { payload := { sub := some "ghost", exp := 1000 }, signed_with := "secret" } 0 "secret").2.2.2
      "ghost" rfl (by decide) rfl rfl

/-- C9: for an existing user whose username resolves to them, a token made by
create_access_token with subject that username and a 30-minute (1800 second)
expires_delta is accepted by get_current_user, resolving to that user, at
every instant strictly before issuance plus 1800 seconds, and rejected with a
401 at every instant strictly after.  (PyJWT also rejects at the boundary
instant itself, which the claim leaves unspecified.) -/
theorem thirty_minute_token_lifetime (db : DB) (u : Users) (secret : String) (t0 t : Int)
    (hresolve : get_user_by_username db u.username = some u) :
    (t < t0 + 1800 →
      get_current_user db (create_access_token (some u.username) (some 1800) t0 secret) t secret
        = .ok u) ∧
    (t0 + 1800 < t →
      get_current_user db (create_access_token (some u.username) (some 1800) t0 secret) t secret
        = .error { status_code := 401, detail := "Could not validate credentials" }) := by
  have hdelta : ((1800 : Int) != 0) = true := by decide
  constructor
  · intro h
    have hnle : ¬(t0 + 1800 ≤ t) := not_le.mpr h
    simp [create_access_token, jwt_encode, get_current_user, jwt_decode, hdelta, hnle, hresolve]
  · intro h
    have hle : t0 + 1800 ≤ t := le_of_lt h
    simp [create_access_token, jwt_encode, get_current_user, jwt_decode, hdelta, hle]

/-- Witness for C9: the token for alice issued at instant 0 is accepted at
instant 100 and rejected at instant 2000. -/
theorem thirty_minute_token_lifetime_witness :
    (get_current_user sampleDB
        (create_access_token (some aliceRow.username) (some 1800) 0 "secret") 100 "secret"
      = .ok aliceRow) ∧
    (get_current_user sampleDB
        (create_access_token (some aliceRow.username) (some 1800) 0 "secret") 2000 "secret"
      = .error { status_code := 401, detail := "Could not validate credentials" }) :=
  ⟨(thirty_minute_token_lifetime sampleDB aliceRow "secret" 0 100 rfl).1 (by decide),
   (thirty_minute_token_lifetime sampleDB aliceRow "secret" 0 2000 rfl).2 (by decide)⟩

end Tonality

namespace Tonality

/-! ## Lemmas about the token cache and the broker -/

theorem cacheLookup_cacheStore_self (cache : TokenCache) (uid : Nat) (tok : String)
    (expiry : Int) :
    cacheLookup (cacheStore cache uid tok expiry) uid = some (tok, expiry) := by
  by_cases h : cache.any (fun e => e.1 == uid) = true
  · have hcomm : ((fun e : Nat × String × Int => e.1 == uid) ∘
        fun e => if e.1 == uid then (uid, tok, expiry) else e) = fun e => e.1 == uid := by
      funext e
      by_cases he : (e.1 == uid) = true <;> simp [Function.comp, he]
    have hne : cache.filter (fun e => e.1 == uid) ≠ [] := by
      obtain ⟨x, hx, hpx⟩ := List.any_eq_true.mp h
      intro hnil
      exact (List.filter_eq_nil_iff.mp hnil x hx) hpx
    simp only [cacheStore, h, if_true, cacheLookup, List.filter_map, hcomm, List.head?_map]
    rw [List.head?_eq_head hne]
    have hpred : (((cache.filter (fun e => e.1 == uid)).head hne).1 == uid) = true := by
      have hmem := List.head_mem hne
      have hmf := List.mem_filter.mp hmem
      simpa using hmf.2
    simp only [Option.map_some']
    rw [if_pos hpred]
  · have hnil : cache.filter (fun e => e.1 == uid) = [] :=
      List.filter_eq_nil_iff.mpr (fun a ha hpa => h (List.any_eq_true.mpr ⟨a, ha, hpa⟩))
    simp only [cacheStore, h, Bool.false_eq_true, if_false, cacheLookup, List.filter_append,
      hnil, List.nil_append]
    simp

theorem spotifyCacheHit_some (cache : TokenCache) (uid : Nat) (now : Int) (tok : String)
    (expiry : Int) (h0 : uid ≠ 0) (hc : cacheLookup cache uid = some (tok, expiry))
    (hv : now < expiry - 300) :
    spotifyCacheHit cache (some uid) now = some tok := by
  have h0b : (uid != 0) = true := by simpa using h0
  simp [spotifyCacheHit, pyTruthyNat, h0b, hc, hv]

theorem spotifyCacheHit_none_of_miss (cache : TokenCache) (uid : Nat) (now : Int)
    (hmiss : ∀ t e, cacheLookup cache uid = some (t, e) → e - 300 ≤ now) :
    spotifyCacheHit cache (some uid) now = none := by
  by_cases h0 : uid = 0
  · simp [spotifyCacheHit, pyTruthyNat, h0]
  · have h0b : (uid != 0) = true := by simpa using h0
    cases hc : cacheLookup cache uid with
    | none => simp [spotifyCacheHit, pyTruthyNat, h0b, hc]
    | some e =>
      obtain ⟨t, ex⟩ := e
      have hle : ex - 300 ≤ now := hmiss t ex hc
      simp [spotifyCacheHit, pyTruthyNat, h0b, hc, not_lt.mpr hle]

theorem spotify_eval_hit (cache : TokenCache) (db : DB) (rt : String) (user_id : Option Nat)
    (hs : Bool) (cid : String) (now : Int) (resp : TokenResponse) (tok : String)
    (hhit : spotifyCacheHit cache user_id now = some tok) :
    get_spotify_access_token cache db rt user_id hs cid now resp =
      { token := some tok, cache := cache, db := db, outbound_calls := 0 } := by
  simp [get_spotify_access_token, hhit]

theorem spotify_eval_noconfig (cache : TokenCache) (db : DB) (rt : String)
    (user_id : Option Nat) (hs : Bool) (now : Int) (resp : TokenResponse)
    (hhit : spotifyCacheHit cache user_id now = none) :
    get_spotify_access_token cache db rt user_id hs "" now resp =
      { token := none, cache := cache, db := db, outbound_calls := 0 } := by
  simp [get_spotify_access_token, hhit]

theorem spotify_eval_fail (cache : TokenCache) (db : DB) (rt : String)
    (user_id : Option Nat) (hs : Bool) (cid : String) (now : Int) (resp : TokenResponse)
    (hhit : spotifyCacheHit cache user_id now = none) (hcid : cid ≠ "")
    (hst : resp.status_code ≠ 200) :
    get_spotify_access_token cache db rt user_id hs cid now resp =
      { token := none, cache := cache, db := db, outbound_calls := 1 } := by
  have hcid' : (cid == "") = false := by simpa using hcid
  have hst' : (resp.status_code == 200) = false := by simpa using hst
  simp [get_spotify_access_token, hhit, hcid', hst']

theorem spotify_eval_refresh (cache : TokenCache) (db : DB) (rt : String)
    (user_id : Option Nat) (hs : Bool) (cid : String) (now : Int) (resp : TokenResponse)
    (hhit : spotifyCacheHit cache user_id now = none) (hcid : cid ≠ "")
    (hst : resp.status_code = 200) :
    get_spotify_access_token cache db rt user_id hs cid now resp =
      { token := resp.access_token,
        cache :=
          if pyTruthyNat user_id && pyTruthyStr resp.access_token then
            cacheStore cache (user_id.getD 0) (resp.access_token.getD "")
              (now + resp.expires_in.getD 3600)
          else cache,
        db :=
          if pyTruthyStr resp.refresh_token && pyTruthyNat user_id && hs then
            { db with users :=
                (updateById db.users (fun u => u.id) (user_id.getD 0)
                  (fun u => { u with spotify_refresh_token := resp.refresh_token })) }
          else db,
        outbound_calls := 1 } := by
  have hcid' : (cid == "") = false := by simpa using hcid
  have hst' : (resp.status_code == 200) = true := by simpa using hst
  simp [get_spotify_access_token, hhit, hcid', hst']

end Tonality

namespace Tonality

/-- C2: for a positive user id (database primary keys are positive), the
broker returns a token while making no outbound call exactly when a cache
entry for the user has more than 300 seconds left (conjunct 1), in which case
the returned token is the cached one and cache and store are untouched
(conjunct 2); after a successful refresh (cache miss, configured client,
provider answers 200 with a nonempty token) the token is cached with expiry
now plus the granted expires_in, one outbound call having been made
(conjunct 3); a second request within 300 seconds of that refresh returns
the freshly cached token with no outbound call, provided the granted lifetime
is at least 600 seconds, as the standard 3600 is (conjunct 4); and a request
whose cache entry has expired makes exactly one outbound refresh call
(conjunct 5). -/
theorem spotify_token_cache_policy (cache : TokenCache) (db : DB) (rt : String) (uid : Nat)
    (hs : Bool) (cid : String) (now : Int) (resp : TokenResponse) (hpos : 0 < uid) :
    (((get_spotify_access_token cache db rt (some uid) hs cid now resp).outbound_calls = 0 ∧
      ((get_spotify_access_token cache db rt (some uid) hs cid now resp).token).isSome = true) ↔
      (∃ e, cacheLookup cache uid = some e ∧ now < e.2 - 300)) ∧
    (∀ tok expiry, cacheLookup cache uid = some (tok, expiry) → now < expiry - 300 →
      get_spotify_access_token cache db rt (some uid) hs cid now resp =
        { token := some tok, cache := cache, db := db, outbound_calls := 0 }) ∧
    (∀ tok, cid ≠ "" →
      (∀ t e, cacheLookup cache uid = some (t, e) → e - 300 ≤ now) →
      resp.status_code = 200 → resp.access_token = some tok → tok ≠ "" →
      (get_spotify_access_token cache db rt (some uid) hs cid now resp).outbound_calls = 1 ∧
      (get_spotify_access_token cache db rt (some uid) hs cid now resp).token = some tok ∧
      cacheLookup (get_spotify_access_token cache db rt (some uid) hs cid now resp).cache uid
        = some (tok, now + resp.expires_in.getD 3600)) ∧
    (∀ tok t1 db2 rt2 hs2 cid2 resp2, cid ≠ "" →
      (∀ t e, cacheLookup cache uid = some (t, e) → e - 300 ≤ now) →
      resp.status_code = 200 → resp.access_token = some tok → tok ≠ "" →
      600 ≤ resp.expires_in.getD 3600 → t1 < now + 300 →
      get_spotify_access_token
          (get_spotify_access_token cache db rt (some uid) hs cid now resp).cache
          db2 rt2 (some uid) hs2 cid2 t1 resp2 =
        { token := some tok,
          cache := (get_spotify_access_token cache db rt (some uid) hs cid now resp).cache,
          db := db2, outbound_calls := 0 }) ∧
    (∀ tok expiry, cacheLookup cache uid = some (tok, expiry) → expiry ≤ now → cid ≠ "" →
      (get_spotify_access_token cache db rt (some uid) hs cid now resp).outbound_calls = 1) := by
  have h0 : uid ≠ 0 := Nat.pos_iff_ne_zero.mp hpos
  have h0b : (uid != 0) = true := by simpa using h0
  refine ⟨?_, ?_, ?_, ?_, ?_⟩
  · constructor
    · rintro ⟨hcalls, htok⟩
      by_cases hex : ∃ e, cacheLookup cache uid = some e ∧ now < e.2 - 300
      · exact hex
      · exfalso
        have hmiss : ∀ t e, cacheLookup cache uid = some (t, e) → e - 300 ≤ now := by
          intro t e hce
          by_contra hlt
          exact hex ⟨(t, e), hce, by omega⟩
        have hhit := spotifyCacheHit_none_of_miss cache uid now hmiss
        by_cases hcid : cid = ""
        · subst hcid
          rw [spotify_eval_noconfig cache db rt (some uid) hs now resp hhit] at htok
          simp at htok
        · by_cases hst : resp.status_code = 200
          · rw [spotify_eval_refresh cache db rt (some uid) hs cid now resp hhit hcid hst]
              at hcalls
            simp at hcalls
          · rw [spotify_eval_fail cache db rt (some uid) hs cid now resp hhit hcid hst]
              at hcalls
            simp at hcalls
    · rintro ⟨⟨tok, expiry⟩, hce, hv⟩
      have hhit := spotifyCacheHit_some cache uid now tok expiry h0 hce hv
      rw [spotify_eval_hit cache db rt (some uid) hs cid now resp tok hhit]
      simp
  · intro tok expiry hce hv
    have hhit := spotifyCacheHit_some cache uid now tok expiry h0 hce hv
    exact spotify_eval_hit cache db rt (some uid) hs cid now resp tok hhit
  · intro tok hcid hmiss hst hat htne
    have hhit := spotifyCacheHit_none_of_miss cache uid now hmiss
    have heval := spotify_eval_refresh cache db rt (some uid) hs cid now resp hhit hcid hst
    have htb : (tok != "") = true := by simpa using htne
    rw [heval]
    refine ⟨rfl, hat, ?_⟩
    simp only [pyTruthyNat, pyTruthyStr, h0b, hat, htb, Bool.and_self, Bool.true_and, if_true,
      Option.getD_some]
    exact cacheLookup_cacheStore_self cache uid tok (now + resp.expires_in.getD 3600)
  · intro tok t1 db2 rt2 hs2 cid2 resp2 hcid hmiss hst hat htne hexp ht1
    have hhit := spotifyCacheHit_none_of_miss cache uid now hmiss
    have heval := spotify_eval_refresh cache db rt (some uid) hs cid now resp hhit hcid hst
    have htb : (tok != "") = true := by simpa using htne
    have hcache1 :
        cacheLookup (get_spotify_access_token cache db rt (some uid) hs cid now resp).cache uid
          = some (tok, now + resp.expires_in.getD 3600) := by
      rw [heval]
      simp only [pyTruthyNat, pyTruthyStr, h0b, hat, htb, Bool.and_self, Bool.true_and, if_true,
        Option.getD_some]
      exact cacheLookup_cacheStore_self cache uid tok (now + resp.expires_in.getD 3600)
    have hvalid : t1 < (now + resp.expires_in.getD 3600) - 300 := by omega
    have hhit2 := spotifyCacheHit_some
      (get_spotify_access_token cache db rt (some uid) hs cid now resp).cache uid t1 tok
      (now + resp.expires_in.getD 3600) h0 hcache1 hvalid
    exact spotify_eval_hit _ db2 rt2 (some uid) hs2 cid2 t1 resp2 tok hhit2
  · intro tok expiry hce hexp hcid
    have hmiss : ∀ t e, cacheLookup cache uid = some (t, e) → e - 300 ≤ now := by
      intro t e hce2
      rw [hce] at hce2
      have hpair : (tok, expiry) = (t, e) := Option.some.inj hce2
      have he : expiry = e := congrArg Prod.snd hpair
      omega
    have hhit := spotifyCacheHit_none_of_miss cache uid now hmiss
    by_cases hst : resp.status_code = 200
    · rw [spotify_eval_refresh cache db rt (some uid) hs cid now resp hhit hcid hst]
    · rw [spotify_eval_fail cache db rt (some uid) hs cid now resp hhit hcid hst]

/-- Witness for C2 at concrete inputs: a hit on a live cache entry (conjunct
2 of the theorem) and a refresh-then-hit round trip (conjuncts 3 and 4). -/
theorem spotify_token_cache_policy_witness :
    (get_spotify_access_token [(1, "cached-tok", 4000)] sampleDB "rt" (some 1) true "cid" 0
        { status_code := 503, access_token := none, expires_in := none, refresh_token := none }
      = { token := some "cached-tok", cache := [(1, "cached-tok", 4000)], db := sampleDB,
          outbound_calls := 0 }) ∧
    (get_spotify_access_token []
        sampleDB "rt" (some 1) true "cid" 0
        { status_code := 200, access_token := some "fresh-tok", expires_in := some 3600,
          refresh_token := none }).token = some "fresh-tok" ∧
    (get_spotify_access_token
        (get_spotify_access_token [] sampleDB "rt" (some 1) true "cid" 0
          { status_code := 200, access_token := some "fresh-tok", expires_in := some 3600,
            refresh_token := none }).cache
        sampleDB "rt2" (some 1) false "cid" 250
        { status_code := 503, access_token := none, expires_in := none, refresh_token := none })
      = { token := some "fresh-tok",
          cache := (get_spotify_access_token [] sampleDB "rt" (some 1) true "cid" 0
            { status_code := 200, access_token := some "fresh-tok", expires_in := some 3600,
              refresh_token := none }).cache,
          db := sampleDB, outbound_calls := 0 } := by
  refine ⟨?_, ?_, ?_⟩
  · exact (spotify_token_cache_policy [(1, "cached-tok", 4000)] sampleDB "rt" 1 true "cid" 0
      { status_code := 503, access_token := none, expires_in := none, refresh_token := none }
      (by decide)).2.1 "cached-tok" 4000 rfl (by decide)
  · exact ((spotify_token_cache_policy [] sampleDB "rt" 1 true "cid" 0
      { status_code := 200, access_token := some "fresh-tok", expires_in := some 3600,
        refresh_token := none }
      (by decide)).2.2.1 "fresh-tok" (by decide) (by intro t e h; simp [cacheLookup] at h)
      rfl rfl (by decide)).2.1
  · exact (spotify_token_cache_policy [] sampleDB "rt" 1 true "cid" 0
      { status_code := 200, access_token := some "fresh-tok", expires_in := some 3600,
        refresh_token := none }
      (by decide)).2.2.2.1 "fresh-tok" 250 sampleDB "rt2" false "cid"
      { status_code := 503, access_token := none, expires_in := none, refresh_token := none }
      (by decide) (by intro t e h; simp [cacheLookup] at h) rfl rfl (by decide) (by decide)
      (by decide)

/-- C7: whenever the broker actually makes an outbound refresh call (one
outbound call recorded) and the provider answers with a non-success status,
the broker returns no token and leaves both the in-memory access-token cache
and the credential store (including every stored spotify_refresh_token)
exactly as they were. -/
theorem spotify_failure_preserves_state (cache : TokenCache) (db : DB) (rt : String)
    (user_id : Option Nat) (hs : Bool) (cid : String) (now : Int) (resp : TokenResponse)
    (hst : resp.status_code ≠ 200)
    (hcall : (get_spotify_access_token cache db rt user_id hs cid now resp).outbound_calls = 1) :
    get_spotify_access_token cache db rt user_id hs cid now resp =
      { token := none, cache := cache, db := db, outbound_calls := 1 } := by
  cases hhit : spotifyCacheHit cache user_id now with
  | some tok =>
    rw [spotify_eval_hit cache db rt user_id hs cid now resp tok hhit] at hcall
    simp at hcall
  | none =>
    by_cases hcid : cid = ""
    · subst hcid
      rw [spotify_eval_noconfig cache db rt user_id hs now resp hhit] at hcall
      simp at hcall
    · exact spotify_eval_fail cache db rt user_id hs cid now resp hhit hcid hst

/-- Witness for C7: an expired cache entry forces a refresh; the provider
answers 503 and the broker returns no token with cache and store untouched. -/
theorem spotify_failure_preserves_state_witness :
    get_spotify_access_token [(1, "stale-tok", 100)] sampleDB "rt" (some 1) true "cid" 200
        { status_code := 503, access_token := none, expires_in := none, refresh_token := none }
      = { token := none, cache := [(1, "stale-tok", 100)], db := sampleDB,
          outbound_calls := 1 } :=
  spotify_failure_preserves_state [(1, "stale-tok", 100)] sampleDB "rt" (some 1) true "cid" 200
    { status_code := 503, access_token := none, expires_in := none, refresh_token := none }
    (by decide) (by rfl)

end Tonality

namespace Tonality

/-- C8, counterexample: joining a community the user already belongs to is
rejected with HTTP status 400, not the 409 conflict the claim asserts for all
three duplication cases. -/
theorem duplicate_membership_status_cex :
    join_community_endpoint sampleDB bobRow 10
      = (.error { status_code := 400, detail := "Already a member of this community" },
         sampleDB) ∧ (400 : Nat) ≠ 409 := by
  constructor
  · rfl
  · decide

/-- C8 (amended): registering an existing username (with a password that
passes the 72-byte bcrypt validation) is rejected with 409 conflict; joining
a community the user is already a member of and re-sending a pending friend
request are rejected with 400 bad-request, not 409; all three rejections
leave the store unchanged. -/
theorem duplicate_rejections (hash : String → String) (db : DB) (username password : String)
    (user target : Users) (tid cid : Nat) (m : CommunityMembership) (c : Community)
    (f : Friendship) :
    (password.utf8ByteSize ≤ BCRYPT_MAX_PASSWORD_BYTES →
      (∃ u, get_user_by_username db username = some u) →
      register hash db username password
        = (.error { status_code := 409, detail := "User already exists" }, db)) ∧
    (db.communities.find? (fun x => x.id == cid) = some c →
      (db.memberships.filter
        (fun x => x.user_id == user.id && x.community_id == cid)).head? = some m →
      join_community_endpoint db user cid
        = (.error { status_code := 400, detail := "Already a member of this community" }, db)) ∧
    (tid ≠ user.id →
      db.users.find? (fun t => t.id == tid) = some target →
      target.allow_friend_requests = true →
      (db.friendships.filter
        (fun x => x.user_id == user.id && x.friend_id == tid)).head? = some f →
      f.status = "pending" →
      send_friend_request db user tid
        = (.error { status_code := 400, detail := "Friend request already sent" }, db)) := by
  refine ⟨?_, ?_, ?_⟩
  · rintro hlen ⟨u, hu⟩
    have hnlt : ¬(password.utf8ByteSize > BCRYPT_MAX_PASSWORD_BYTES) := not_lt.mpr hlen
    simp [register, hnlt, hu]
  · intro hc hm
    simp [join_community_endpoint, hc, hm]
  · intro hne hfind hallow hhead hpend
    have hne' : (tid == user.id) = false := by simpa using hne
    have hacc : (f.status == "accepted") = false := by rw [hpend]; decide
    have hpen : (f.status == "pending") = true := by rw [hpend]; decide
    simp [send_friend_request, hne', hfind, hallow, hhead, hacc, hpen]

/-- Witness for the amended C8 theorem: re-registering alice, bob re-joining
community 10, and bob re-sending his pending request to alice. -/
theorem duplicate_rejections_witness :
    (register (fun s => s) sampleDB "alice" "pw"
      = (.error { status_code := 409, detail := "User already exists" }, sampleDB)) ∧
    (join_community_endpoint sampleDB bobRow 10
      = (.error { status_code := 400, detail := "Already a member of this community" },
         sampleDB)) ∧
    (send_friend_request sampleDB bobRow 1
      = (.error { status_code := 400, detail := "Friend request already sent" }, sampleDB)) := by
  refine ⟨?_, ?_, ?_⟩
  · exact (duplicate_rejections (fun s => s) sampleDB "alice" "pw" bobRow aliceRow 1 10
      bobMembershipRow rockRow pendingRow).1 (by decide) ⟨aliceRow, rfl⟩
  · exact (duplicate_rejections (fun s => s) sampleDB "alice" "pw" bobRow aliceRow 1 10
      bobMembershipRow rockRow pendingRow).2.1 rfl rfl
  · exact (duplicate_rejections (fun s => s) sampleDB "alice" "pw" bobRow aliceRow 1 10
      bobMembershipRow rockRow pendingRow).2.2 (by decide) rfl rfl rfl rfl

/-- C6: a successful join_community increments the joined community's
member_count by exactly 1, a successful leave_community sets it to
max 0 (old - 1) — a decrement by exactly 1 whenever the counter was at least
1, and never below zero — and in both cases every other community row is
unchanged (observed through primary-key lookup). -/
theorem community_counter_join_leave (db : DB) (uid : Nat) (c : Community)
    (hu : db.users.any (fun x => x.id == uid) = true)
    (hc : db.communities.find? (fun x => x.id == c.id) = some c) :
    ((join_community db uid c.id).1.isSome = true ∧
     (join_community db uid c.id).2.communities.find? (fun x => x.id == c.id)
        = some { c with member_count := c.member_count + 1 } ∧
     (∀ j, j ≠ c.id → (join_community db uid c.id).2.communities.find? (fun x => x.id == j)
        = db.communities.find? (fun x => x.id == j))) ∧
    (∀ m, (db.memberships.filter
             (fun x => x.user_id == uid && x.community_id == c.id)).head? = some m →
      (leave_community db uid c.id).1 = true ∧
      (leave_community db uid c.id).2.communities.find? (fun x => x.id == c.id)
        = some { c with member_count := max 0 (c.member_count - 1) } ∧
      (1 ≤ c.member_count → max 0 (c.member_count - 1) = c.member_count - 1) ∧
      0 ≤ max 0 (c.member_count - 1) ∧
      (∀ j, j ≠ c.id → (leave_community db uid c.id).2.communities.find? (fun x => x.id == j)
        = db.communities.find? (fun x => x.id == j))) := by
  have hany : db.communities.any (fun x => x.id == c.id) = true := any_of_find? hc
  constructor
  · refine ⟨?_, ?_, ?_⟩
    · simp [join_community, hu, hany]
    · simp only [join_community, hu, hany, Bool.and_self, if_true]
      exact find?_updateById_self (fun x => x.id) c.id
        (fun x => { x with member_count := x.member_count + 1 }) (fun a => rfl)
        db.communities c hc
    · intro j hj
      simp only [join_community, hu, hany, Bool.and_self, if_true]
      exact find?_updateById_ne (fun x => x.id) c.id j
        (fun x => { x with member_count := x.member_count + 1 }) (fun a => rfl) hj
        db.communities
  · intro m hm
    refine ⟨?_, ?_, ?_, ?_, ?_⟩
    · simp [leave_community, hm]
    · simp only [leave_community, hm]
      exact find?_updateById_self (fun x => x.id) c.id
        (fun x => { x with member_count := max 0 (x.member_count - 1) }) (fun a => rfl)
        db.communities c hc
    · intro hge
      exact max_eq_right (by omega)
    · exact le_max_left 0 (c.member_count - 1)
    · intro j hj
      simp only [leave_community, hm]
      exact find?_updateById_ne (fun x => x.id) c.id j
        (fun x => { x with member_count := max 0 (x.member_count - 1) }) (fun a => rfl) hj
        db.communities

/-- Witness for C6: carol (user 3) joining community 10 bumps its counter
from 5 to 6; bob (user 2) leaving sets it to 4. -/
theorem community_counter_join_leave_witness :
    ((join_community sampleDB 3 rockRow.id).1.isSome = true ∧
     (join_community sampleDB 3 rockRow.id).2.communities.find? (fun x => x.id == rockRow.id)
        = some { rockRow with member_count := rockRow.member_count + 1 } ∧
     (∀ j, j ≠ rockRow.id →
        (join_community sampleDB 3 rockRow.id).2.communities.find? (fun x => x.id == j)
          = sampleDB.communities.find? (fun x => x.id == j))) ∧
    ((leave_community sampleDB 2 rockRow.id).1 = true ∧
     (leave_community sampleDB 2 rockRow.id).2.communities.find? (fun x => x.id == rockRow.id)
        = some { rockRow with member_count := max 0 (rockRow.member_count - 1) } ∧
     (1 ≤ rockRow.member_count →
        max 0 (rockRow.member_count - 1) = rockRow.member_count - 1) ∧
     0 ≤ max 0 (rockRow.member_count - 1) ∧
     (∀ j, j ≠ rockRow.id →
        (leave_community sampleDB 2 rockRow.id).2.communities.find? (fun x => x.id == j)
          = sampleDB.communities.find? (fun x => x.id == j))) :=
  ⟨(community_counter_join_leave sampleDB 3 rockRow (by decide) rfl).1,
   (community_counter_join_leave sampleDB 2 rockRow (by decide) rfl).2 bobMembershipRow rfl⟩

end Tonality

namespace Tonality

/-- C5: if the only friendship rows between distinct users A and B are a
single pending row r from B to A, and A accepts request r, then the store
holds exactly two rows for the pair, both accepted: the updated B to A row
and a fresh reverse A to B row. -/
theorem accept_request_symmetric_edges (db : DB) (A B : Users) (r : Friendship)
    (hAB : A.id ≠ B.id)
    (hfind : db.friendships.find? (fun f => f.id == r.id) = some r)
    (huser : r.user_id = B.id) (hfriend : r.friend_id = A.id) (hstatus : r.status = "pending")
    (hBA : db.friendships.filter (fun f => f.user_id == B.id && f.friend_id == A.id) = [r])
    (hABrows : db.friendships.filter (fun f => f.user_id == A.id && f.friend_id == B.id) = []) :
    (accept_friend_request db A r.id).1 = .ok () ∧
    (accept_friend_request db A r.id).2.friendships.filter
        (fun f => f.user_id == B.id && f.friend_id == A.id)
      = [{ r with status := "accepted" }] ∧
    (accept_friend_request db A r.id).2.friendships.filter
        (fun f => f.user_id == A.id && f.friend_id == B.id)
      = [{ id := db.friendship_next_id, user_id := A.id, friend_id := B.id,
           status := "accepted" }] := by
  have hfr : (r.friend_id != A.id) = false := by simp [hfriend]
  have hst : (r.status != "pending") = false := by rw [hstatus]; decide
  have hABne : (A.id == B.id) = false := by simpa using hAB
  have hupdBA : (updateById db.friendships (fun f => f.id) r.id
      (fun f => { f with status := "accepted" })).filter
        (fun f => f.user_id == B.id && f.friend_id == A.id)
      = [{ r with status := "accepted" }] := by
    rw [filter_updateById (fun f => f.id) r.id (fun f => { f with status := "accepted" })
      (fun f => f.user_id == B.id && f.friend_id == A.id) (fun a => rfl) db.friendships, hBA]
    simp [updateById]
  have hupdAB : (updateById db.friendships (fun f => f.id) r.id
      (fun f => { f with status := "accepted" })).filter
        (fun f => f.user_id == A.id && f.friend_id == B.id)
      = [] := by
    rw [filter_updateById (fun f => f.id) r.id (fun f => { f with status := "accepted" })
      (fun f => f.user_id == A.id && f.friend_id == B.id) (fun a => rfl) db.friendships,
      hABrows]
    rfl
  refine ⟨?_, ?_, ?_⟩
  · simp [accept_friend_request, hfind, hfr, hst]
  · simp only [accept_friend_request, hfind, hfr, hst, Bool.false_eq_true, if_false,
      List.filter_append, hupdBA, huser]
    simp [hABne]
  · simp only [accept_friend_request, hfind, hfr, hst, Bool.false_eq_true, if_false,
      List.filter_append, hupdAB, huser]
    simp

/-- Witness for C5: alice accepts the pending request row 50 from bob; the
pair afterwards holds exactly the accepted rows bob-to-alice and
alice-to-bob. -/
theorem accept_request_symmetric_edges_witness :
    (accept_friend_request sampleDB aliceRow pendingRow.id).1 = .ok () ∧
    (accept_friend_request sampleDB aliceRow pendingRow.id).2.friendships.filter
        (fun f => f.user_id == bobRow.id && f.friend_id == aliceRow.id)
      = [{ pendingRow with status := "accepted" }] ∧
    (accept_friend_request sampleDB aliceRow pendingRow.id).2.friendships.filter
        (fun f => f.user_id == aliceRow.id && f.friend_id == bobRow.id)
      = [{ id := sampleDB.friendship_next_id, user_id := aliceRow.id, friend_id := bobRow.id,
           status := "accepted" }] :=
  accept_request_symmetric_edges sampleDB aliceRow bobRow pendingRow (by decide) rfl rfl rfl
    rfl rfl rfl

end Tonality

namespace Tonality

/-- C4, counterexample: the direct add-friend endpoint moves a pair straight
from no relationship to two accepted rows — there was no row between alice
(1) and carol (3) in either direction, the call succeeds, and both directed
rows exist afterwards with status accepted — even though carol has disabled
incoming friend requests.  This refutes the claim that no operation moves a
pair directly from none to accepted. -/
theorem direct_add_none_to_accepted_cex :
    (sampleDB.friendships.filter
        (fun f => (f.user_id == 1 && f.friend_id == 3) || (f.user_id == 3 && f.friend_id == 1))
      = []) ∧
    carolRow.allow_friend_requests = false ∧
    (add_friend_endpoint sampleDB aliceRow 3).1 = .ok () ∧
    ((add_friend_endpoint sampleDB aliceRow 3).2.friendships.filter
        (fun f => f.user_id == 1 && f.friend_id == 3)).map (fun f => f.status)
      = ["accepted"] ∧
    ((add_friend_endpoint sampleDB aliceRow 3).2.friendships.filter
        (fun f => f.user_id == 3 && f.friend_id == 1)).map (fun f => f.status)
      = ["accepted"] :=
  ⟨rfl, rfl, rfl, rfl, rfl⟩

/-- C4 (amended): the request/accept/reject/cancel flow follows the stated
state machine — a self-request and a request to a user with incoming requests
disabled are rejected without touching the store; a request on a pair with no
existing row (and no incoming pending row) creates exactly one new pending
row; accepting a pending incoming request marks it accepted and appends the
symmetric reverse accepted row; rejecting and cancelling a pending row delete
it.  However, the legacy direct add-friend endpoint moves a pair from none
straight to accepted, inserting both symmetric accepted rows at once, with no
allow_friend_requests check. -/
theorem friendship_state_machine (db : DB) (u target : Users) (tid fid : Nat) (r : Friendship) :
    (send_friend_request db u u.id
      = (.error { status_code := 400, detail := "Cannot send friend request to yourself" },
         db)) ∧
    (tid ≠ u.id → db.users.find? (fun t => t.id == tid) = some target →
      target.allow_friend_requests = false →
      send_friend_request db u tid
        = (.error { status_code := 403, detail := "User is not accepting friend requests" },
           db)) ∧
    (tid ≠ u.id → db.users.find? (fun t => t.id == tid) = some target →
      target.allow_friend_requests = true →
      db.friendships.filter (fun f => f.user_id == u.id && f.friend_id == tid) = [] →
      db.friendships.filter
        (fun f => f.user_id == tid && f.friend_id == u.id && f.status == "pending") = [] →
      send_friend_request db u tid
        = (.ok db.friendship_next_id,
           { db with friendships := (db.friendships ++
                       [{ id := db.friendship_next_id, user_id := u.id, friend_id := tid,
                          status := "pending" }]),
                     friendship_next_id := db.friendship_next_id + 1 })) ∧
    (db.friendships.find? (fun f => f.id == r.id) = some r → r.friend_id = u.id →
      r.status = "pending" →
      accept_friend_request db u r.id
        = (.ok (),
           { db with friendships :=
                       ((updateById db.friendships (fun f => f.id) r.id
                         (fun f => { f with status := "accepted" })) ++
                        [{ id := db.friendship_next_id, user_id := u.id, friend_id := r.user_id,
                           status := "accepted" }]),
                     friendship_next_id := db.friendship_next_id + 1 })) ∧
    (db.friendships.find? (fun f => f.id == r.id) = some r → r.friend_id = u.id →
      r.status = "pending" →
      reject_friend_request db u r.id
        = (.ok (), { db with friendships := db.friendships.filter (fun f => !(f.id == r.id)) })) ∧
    (db.friendships.find? (fun f => f.id == r.id) = some r → r.user_id = u.id →
      r.status = "pending" →
      cancel_friend_request db u r.id
        = (.ok (), { db with friendships := db.friendships.filter (fun f => !(f.id == r.id)) })) ∧
    (fid ≠ u.id → db.users.any (fun x => x.id == u.id) = true →
      db.users.any (fun x => x.id == fid) = true →
      add_friend_endpoint db u fid
        = (.ok (),
           { db with friendships := (db.friendships ++
                       [{ id := db.friendship_next_id, user_id := u.id, friend_id := fid,
                          status := "accepted" },
                        { id := db.friendship_next_id + 1, user_id := fid, friend_id := u.id,
                          status := "accepted" }]),
                     friendship_next_id := db.friendship_next_id + 2 })) := by
  refine ⟨?_, ?_, ?_, ?_, ?_, ?_, ?_⟩
  · simp [send_friend_request]
  · intro hne hfind hallow
    have hne' : (tid == u.id) = false := by simpa using hne
    simp [send_friend_request, hne', hfind, hallow]
  · intro hne hfind hallow hnone hinc
    have hne' : (tid == u.id) = false := by simpa using hne
    simp [send_friend_request, hne', hfind, hallow, hnone, sendRequestTail, hinc]
  · intro hfind hfr hst
    have hfr' : (r.friend_id != u.id) = false := by simp [hfr]
    have hst' : (r.status != "pending") = false := by rw [hst]; decide
    simp [accept_friend_request, hfind, hfr', hst']
  · intro hfind hfr hst
    have hfr' : (r.friend_id != u.id) = false := by simp [hfr]
    have hst' : (r.status != "pending") = false := by rw [hst]; decide
    simp [reject_friend_request, hfind, hfr', hst']
  · intro hfind hus hst
    have hus' : (r.user_id != u.id) = false := by simp [hus]
    have hst' : (r.status != "pending") = false := by rw [hst]; decide
    simp [cancel_friend_request, hfind, hus', hst']
  · intro hne hu hf
    have hne' : (fid == u.id) = false := by simpa using hne
    simp [add_friend_endpoint, hne', add_friend, hu, hf]

/-- Witness for the amended C4 theorem, exercising every transition on the
sample store: a self-request by alice, a request to carol (requests
disabled), a fresh request carol to bob, alice accepting / rejecting the
pending row 50, bob cancelling it, and the direct add alice-carol. -/
theorem friendship_state_machine_witness :
    (send_friend_request sampleDB aliceRow aliceRow.id
      = (.error { status_code := 400, detail := "Cannot send friend request to yourself" },
         sampleDB)) ∧
    (send_friend_request sampleDB aliceRow 3
      = (.error { status_code := 403, detail := "User is not accepting friend requests" },
         sampleDB)) ∧
    (send_friend_request sampleDB carolRow 2
      = (.ok sampleDB.friendship_next_id,
         { sampleDB with friendships := (sampleDB.friendships ++
                     [{ id := sampleDB.friendship_next_id, user_id := carolRow.id,
                        friend_id := 2, status := "pending" }]),
                         friendship_next_id := sampleDB.friendship_next_id + 1 })) ∧
    (accept_friend_request sampleDB aliceRow pendingRow.id
      = (.ok (),
         { sampleDB with friendships :=
                     ((updateById sampleDB.friendships (fun f => f.id) pendingRow.id
                       (fun f => { f with status := "accepted" })) ++
                      [{ id := sampleDB.friendship_next_id, user_id := aliceRow.id,
                         friend_id := pendingRow.user_id, status := "accepted" }]),
                         friendship_next_id := sampleDB.friendship_next_id + 1 })) ∧
    (reject_friend_request sampleDB aliceRow pendingRow.id
      = (.ok (), { sampleDB with
           friendships := sampleDB.friendships.filter (fun f => !(f.id == pendingRow.id)) })) ∧
    (cancel_friend_request sampleDB bobRow pendingRow.id
      = (.ok (), { sampleDB with
           friendships := sampleDB.friendships.filter (fun f => !(f.id == pendingRow.id)) })) ∧
    (add_friend_endpoint sampleDB aliceRow 3
      = (.ok (),
         { sampleDB with friendships := (sampleDB.friendships ++
                     [{ id := sampleDB.friendship_next_id, user_id := aliceRow.id,
                        friend_id := 3, status := "accepted" },
                      { id := sampleDB.friendship_next_id + 1, user_id := 3,
                        friend_id := aliceRow.id, status := "accepted" }]),
                         friendship_next_id := sampleDB.friendship_next_id + 2 })) := by
  refine ⟨?_, ?_, ?_, ?_, ?_, ?_, ?_⟩
  · exact (friendship_state_machine sampleDB aliceRow carolRow 3 3 pendingRow).1
  · exact (friendship_state_machine sampleDB aliceRow carolRow 3 3 pendingRow).2.1
      (by decide) rfl rfl
  · exact (friendship_state_machine sampleDB carolRow bobRow 2 2 pendingRow).2.2.1
      (by decide) rfl rfl rfl rfl
  · exact (friendship_state_machine sampleDB aliceRow carolRow 3 3 pendingRow).2.2.2.1
      rfl rfl rfl
  · exact (friendship_state_machine sampleDB aliceRow carolRow 3 3 pendingRow).2.2.2.2.1
      rfl rfl rfl
  · exact (friendship_state_machine sampleDB bobRow carolRow 3 3 pendingRow).2.2.2.2.2.1
      rfl rfl rfl
  · exact (friendship_state_machine sampleDB aliceRow carolRow 3 3 pendingRow).2.2.2.2.2.2
      (by decide) (by decide) (by decide)

end Tonality

namespace Tonality

/-- C1, counterexample: when the new option equals the previously chosen one
(the claim does not require o_old and o_new to be distinct), vote_on_poll
succeeds and the shared counter is unchanged — decremented and then
incremented — so the claimed net decrement of o_old by exactly 1 fails.
Here alice (1) re-votes option 30 on poll 20, which she had already chosen,
and its counter stays at 5. -/
theorem revote_same_option_cex :
    ((vote_on_poll sampleDB 1 20 30).1).isSome = true ∧
    (sampleDB.polloptions.find? (fun o => o.id == 30)).map (fun o => o.votes) = some 5 ∧
    ((vote_on_poll sampleDB 1 20 30).2.polloptions.find? (fun o => o.id == 30)).map
        (fun o => o.votes) = some 5 :=
  ⟨rfl, rfl, rfl⟩

/-- C1 (amended): for DISTINCT existing options o_old and o_new of poll p,
if the user's only vote row on p points at o_old and they re-vote for o_new,
the call succeeds, o_old's counter drops by exactly 1, o_new's rises by
exactly 1, the total tally over p's options is unchanged, and the user still
has exactly one vote row on p, now pointing at o_new. -/
theorem revote_moves_tally (db : DB) (uid pid : Nat) (v : PollVote) (oold onew : PollOption)
    (hvrows : db.pollvotes.filter (fun w => w.user_id == uid && w.poll_id == pid) = [v])
    (hvopt : v.option_id = oold.id)
    (hne : oold.id ≠ onew.id)
    (hoold : db.polloptions.find? (fun o => o.id == oold.id) = some oold)
    (honew : db.polloptions.find? (fun o => o.id == onew.id) = some onew)
    (hnodup : (db.polloptions.map (fun o => o.id)).Nodup)
    (hpold : oold.poll_id = pid) (hpnew : onew.poll_id = pid) :
    (vote_on_poll db uid pid onew.id).1 = some { v with option_id := onew.id } ∧
    (vote_on_poll db uid pid onew.id).2.polloptions.find? (fun o => o.id == oold.id)
      = some { oold with votes := oold.votes - 1 } ∧
    (vote_on_poll db uid pid onew.id).2.polloptions.find? (fun o => o.id == onew.id)
      = some { onew with votes := onew.votes + 1 } ∧
    pollTally (vote_on_poll db uid pid onew.id).2 pid = pollTally db pid ∧
    (vote_on_poll db uid pid onew.id).2.pollvotes.filter
        (fun w => w.user_id == uid && w.poll_id == pid)
      = [{ v with option_id := onew.id }] := by
  have hhead : (db.pollvotes.filter
      (fun w => w.user_id == uid && w.poll_id == pid)).head? = some v := by
    rw [hvrows]; rfl
  have hanyold : db.polloptions.any (fun o => o.id == oold.id) = true := any_of_find? hoold
  have hanynew : db.polloptions.any (fun o => o.id == onew.id) = true := any_of_find? honew
  have hfind1 : (updateById db.polloptions (fun o => o.id) oold.id
      (fun o => { o with votes := o.votes - 1 })).find? (fun o => o.id == onew.id)
      = some onew := by
    rw [find?_updateById_ne (fun o => o.id) oold.id onew.id
      (fun o => { o with votes := o.votes - 1 }) (fun a => rfl) (Ne.symm hne) db.polloptions]
    exact honew
  have hany1 : (updateById db.polloptions (fun o => o.id) oold.id
      (fun o => { o with votes := o.votes - 1 })).any (fun o => o.id == onew.id) = true :=
    any_of_find? hfind1
  have hmain : vote_on_poll db uid pid onew.id =
      (some { v with option_id := onew.id },
       { db with
           polloptions :=
             (updateById (updateById db.polloptions (fun o => o.id) oold.id
                 (fun o => { o with votes := o.votes - 1 })) (fun o => o.id) onew.id
               (fun o => { o with votes := o.votes + 1 })),
           pollvotes :=
             (updateById db.pollvotes (fun w => w.id) v.id
               (fun w => { w with option_id := onew.id })) }) := by
    simp only [vote_on_poll, hhead]
    simp [hvopt, hanyold, hany1, hanynew]
  refine ⟨?_, ?_, ?_, ?_, ?_⟩
  · rw [hmain]
  · rw [hmain]
    simp only
    rw [find?_updateById_ne (fun o : PollOption => o.id) onew.id oold.id
      (fun o => { o with votes := o.votes + 1 }) (fun a => rfl) hne]
    exact find?_updateById_self (fun o => o.id) oold.id
      (fun o => { o with votes := o.votes - 1 }) (fun a => rfl) db.polloptions oold hoold
  · rw [hmain]
    simp only
    exact find?_updateById_self (fun o => o.id) onew.id
      (fun o => { o with votes := o.votes + 1 }) (fun a => rfl) _ onew hfind1
  · rw [hmain]
    have hnd1 : ((updateById db.polloptions (fun o => o.id) oold.id
        (fun o => { o with votes := o.votes - 1 })).map (fun o => o.id)).Nodup := by
      rw [updateById_map_key (fun o : PollOption => o.id) oold.id
        (fun o => { o with votes := o.votes - 1 }) (fun a => rfl)]
      exact hnodup
    have hsum1 := sum_filter_updateById (fun o => o.id) oold.id
      (fun o => { o with votes := o.votes - 1 }) (fun o => o.poll_id == pid)
      (fun o => o.votes) (-1) (fun a => rfl) (fun a => by ring) db.polloptions oold hnodup
      hoold (by simp [hpold])
    have hsum2 := sum_filter_updateById (fun o => o.id) onew.id
      (fun o => { o with votes := o.votes + 1 }) (fun o => o.poll_id == pid)
      (fun o => o.votes) 1 (fun a => rfl) (fun a => rfl)
      (updateById db.polloptions (fun o => o.id) oold.id
        (fun o => { o with votes := o.votes - 1 })) onew hnd1 hfind1 (by simp [hpnew])
    simp only [pollTally]
    rw [hsum2, hsum1]
    ring
  · rw [hmain]
    simp only
    rw [filter_updateById (fun w => w.id) v.id (fun w => { w with option_id := onew.id })
      (fun w => w.user_id == uid && w.poll_id == pid) (fun a => rfl) db.pollvotes, hvrows]
    simp [updateById]

/-- Witness for the amended C1 theorem: alice moves her poll-20 vote from
option 30 (5 votes) to option 31 (7 votes); the counters become 4 and 8, the
tally over poll 20 is unchanged, and her single vote row points at 31. -/
theorem revote_moves_tally_witness :
    (vote_on_poll sampleDB 1 20 optionBRow.id).1
      = some { aliceVoteRow with option_id := optionBRow.id } ∧
    (vote_on_poll sampleDB 1 20 optionBRow.id).2.polloptions.find?
        (fun o => o.id == optionARow.id)
      = some { optionARow with votes := optionARow.votes - 1 } ∧
    (vote_on_poll sampleDB 1 20 optionBRow.id).2.polloptions.find?
        (fun o => o.id == optionBRow.id)
      = some { optionBRow with votes := optionBRow.votes + 1 } ∧
    pollTally (vote_on_poll sampleDB 1 20 optionBRow.id).2 20 = pollTally sampleDB 20 ∧
    (vote_on_poll sampleDB 1 20 optionBRow.id).2.pollvotes.filter
        (fun w => w.user_id == 1 && w.poll_id == 20)
      = [{ aliceVoteRow with option_id := optionBRow.id }] :=
  revote_moves_tally sampleDB 1 20 aliceVoteRow optionARow optionBRow rfl rfl (by decide)
    rfl rfl (by decide) rfl rfl

/-- C10, counterexample: the claim asserts that vote_on_poll records (or
moves) the vote and increments the chosen option's counter for every
authenticated user; but for a user whose existing vote on the poll already
points at the chosen option the call succeeds and the counter is net
unchanged (decremented, then re-incremented): alice re-votes option 30 on
poll 20 and its counter stays at 5 instead of rising. -/
theorem vote_counter_not_incremented_cex :
    ((vote_on_poll sampleDB 1 20 30).1).isSome = true ∧
    ((vote_on_poll sampleDB 1 20 30).2.polloptions.find? (fun x => x.id == 30)).map
        (fun x => x.votes) = some 5 ∧
    ¬ (((vote_on_poll sampleDB 1 20 30).2.polloptions.find? (fun x => x.id == 30)).map
        (fun x => x.votes) = some (5 + 1)) :=
  ⟨rfl, rfl, by decide⟩

/-- C10 (amended): vote_on_poll performs no validity check on the poll or on
option membership — no hypothesis constrains the poll's is_active flag, its
ends_at instant, or ties the option to the voted poll.  A user with no prior
vote on the poll gets a fresh vote row and the option's counter rises by 1
(conjunct 1); a user whose single vote row points at a different option has
the row re-pointed and the chosen option's counter rises by 1 (conjunct 2);
but a user re-voting for the very option their vote already points at keeps
the same row and the counter is net unchanged — decremented, then
re-incremented (conjunct 3). -/
theorem vote_no_validity_checks (db : DB) (uid : Nat) (p : Poll) (o oold : PollOption)
    (v : PollVote)
    (hu : db.users.any (fun x => x.id == uid) = true)
    (hp : db.polls.find? (fun x => x.id == p.id) = some p)
    (ho : db.polloptions.find? (fun x => x.id == o.id) = some o) :
    (db.pollvotes.filter (fun w => w.user_id == uid && w.poll_id == p.id) = [] →
      (vote_on_poll db uid p.id o.id).1
        = some { id := db.pollvote_next_id, poll_id := p.id, user_id := uid,
                 option_id := o.id } ∧
      (vote_on_poll db uid p.id o.id).2.polloptions.find? (fun x => x.id == o.id)
        = some { o with votes := o.votes + 1 } ∧
      (vote_on_poll db uid p.id o.id).2.pollvotes.filter
          (fun w => w.user_id == uid && w.poll_id == p.id)
        = [{ id := db.pollvote_next_id, poll_id := p.id, user_id := uid,
             option_id := o.id }]) ∧
    (db.pollvotes.filter (fun w => w.user_id == uid && w.poll_id == p.id) = [v] →
      v.option_id = oold.id →
      db.polloptions.find? (fun x => x.id == oold.id) = some oold →
      oold.id ≠ o.id →
      (vote_on_poll db uid p.id o.id).1 = some { v with option_id := o.id } ∧
      (vote_on_poll db uid p.id o.id).2.polloptions.find? (fun x => x.id == o.id)
        = some { o with votes := o.votes + 1 } ∧
      (vote_on_poll db uid p.id o.id).2.pollvotes.filter
          (fun w => w.user_id == uid && w.poll_id == p.id)
        = [{ v with option_id := o.id }]) ∧
    (db.pollvotes.filter (fun w => w.user_id == uid && w.poll_id == p.id) = [v] →
      v.option_id = o.id →
      (vote_on_poll db uid p.id o.id).1 = some v ∧
      (vote_on_poll db uid p.id o.id).2.polloptions.find? (fun x => x.id == o.id)
        = some o ∧
      (vote_on_poll db uid p.id o.id).2.pollvotes.filter
          (fun w => w.user_id == uid && w.poll_id == p.id) = [v]) := by
  have hoany : db.polloptions.any (fun x => x.id == o.id) = true := any_of_find? ho
  refine ⟨?_, ?_, ?_⟩
  · intro hfresh
    have hhead : (db.pollvotes.filter
        (fun w => w.user_id == uid && w.poll_id == p.id)).head? = none := by
      rw [hfresh]; rfl
    have hpany : db.polls.any (fun x => x.id == p.id) = true := any_of_find? hp
    have hmain : vote_on_poll db uid p.id o.id =
        (some { id := db.pollvote_next_id, poll_id := p.id, user_id := uid,
                option_id := o.id },
         { db with
             pollvotes := (db.pollvotes ++
               [{ id := db.pollvote_next_id, poll_id := p.id, user_id := uid,
                  option_id := o.id }]),
             pollvote_next_id := db.pollvote_next_id + 1,
             polloptions :=
               (updateById db.polloptions (fun x => x.id) o.id
                 (fun x => { x with votes := x.votes + 1 })) }) := by
      simp only [vote_on_poll, hhead]
      simp [hu, hpany, hoany]
    refine ⟨?_, ?_, ?_⟩
    · rw [hmain]
    · rw [hmain]
      simp only
      exact find?_updateById_self (fun x => x.id) o.id
        (fun x => { x with votes := x.votes + 1 }) (fun a => rfl) db.polloptions o ho
    · rw [hmain]
      simp only [List.filter_append, hfresh, List.nil_append]
      simp
  · intro hvrows hvopt hooldfind hne
    have hhead : (db.pollvotes.filter
        (fun w => w.user_id == uid && w.poll_id == p.id)).head? = some v := by
      rw [hvrows]; rfl
    have hanyold : db.polloptions.any (fun x => x.id == oold.id) = true :=
      any_of_find? hooldfind
    have hfind1 : (updateById db.polloptions (fun x => x.id) oold.id
        (fun x => { x with votes := x.votes - 1 })).find? (fun x => x.id == o.id)
        = some o := by
      rw [find?_updateById_ne (fun x : PollOption => x.id) oold.id o.id
        (fun x => { x with votes := x.votes - 1 }) (fun a => rfl) (Ne.symm hne)
        db.polloptions]
      exact ho
    have hany1 := any_of_find? hfind1
    have hmain : vote_on_poll db uid p.id o.id =
        (some { v with option_id := o.id },
         { db with
             polloptions :=
               (updateById (updateById db.polloptions (fun x => x.id) oold.id
                   (fun x => { x with votes := x.votes - 1 })) (fun x => x.id) o.id
                 (fun x => { x with votes := x.votes + 1 })),
             pollvotes :=
               (updateById db.pollvotes (fun w => w.id) v.id
                 (fun w => { w with option_id := o.id })) }) := by
      simp only [vote_on_poll, hhead]
      simp [hvopt, hanyold, hany1, hoany]
    refine ⟨?_, ?_, ?_⟩
    · rw [hmain]
    · rw [hmain]
      simp only
      exact find?_updateById_self (fun x => x.id) o.id
        (fun x => { x with votes := x.votes + 1 }) (fun a => rfl) _ o hfind1
    · rw [hmain]
      simp only
      rw [filter_updateById (fun w => w.id) v.id (fun w => { w with option_id := o.id })
        (fun w => w.user_id == uid && w.poll_id == p.id) (fun a => rfl) db.pollvotes,
        hvrows]
      simp [updateById]
  · intro hvrows hvo
    have hhead : (db.pollvotes.filter
        (fun w => w.user_id == uid && w.poll_id == p.id)).head? = some v := by
      rw [hvrows]; rfl
    have hfinddec : (updateById db.polloptions (fun x => x.id) o.id
        (fun x => { x with votes := x.votes - 1 })).find? (fun x => x.id == o.id)
        = some { o with votes := o.votes - 1 } :=
      find?_updateById_self (fun x => x.id) o.id
        (fun x => { x with votes := x.votes - 1 }) (fun a => rfl) db.polloptions o ho
    have hany1 := any_of_find? hfinddec
    have hv2 : ({ v with option_id := o.id } : PollVote) = v := by
      rw [← hvo]
    have hmain : vote_on_poll db uid p.id o.id =
        (some { v with option_id := o.id },
         { db with
             polloptions :=
               (updateById (updateById db.polloptions (fun x => x.id) o.id
                   (fun x => { x with votes := x.votes - 1 })) (fun x => x.id) o.id
                 (fun x => { x with votes := x.votes + 1 })),
             pollvotes :=
               (updateById db.pollvotes (fun w => w.id) v.id
                 (fun w => { w with option_id := o.id })) }) := by
      simp only [vote_on_poll, hhead]
      simp [hvo, hoany, hany1]
    refine ⟨?_, ?_, ?_⟩
    · rw [hmain]
      simp only
      rw [hv2]
    · rw [hmain]
      simp only
      have hstep := find?_updateById_self (fun x : PollOption => x.id) o.id
        (fun x => { x with votes := x.votes + 1 }) (fun a => rfl) _ _ hfinddec
      rw [hstep]
      have hrec : ({ o with votes := o.votes - 1 + 1 } : PollOption) = o := by
        have hvv : o.votes - 1 + 1 = o.votes := by omega
        rw [hvv]
      exact congrArg some hrec
    · rw [hmain]
      simp only
      rw [filter_updateById (fun w => w.id) v.id (fun w => { w with option_id := o.id })
        (fun w => w.user_id == uid && w.poll_id == p.id) (fun a => rfl) db.pollvotes,
        hvrows]
      simp [updateById, hv2]

/-- Witness for the amended C10 theorem: bob (2), with no vote on poll 20 —
inactive and past its ends_at — votes for option 32 of a different poll and
its counter rises from 3 to 4; alice (1) moves her vote from option 30 to 31
and the counter of 31 rises from 7 to 8; alice re-votes option 30 and its
counter stays at 5. -/
theorem vote_no_validity_checks_witness :
    ((vote_on_poll sampleDB 2 pollRow.id optionCRow.id).1
        = some { id := sampleDB.pollvote_next_id, poll_id := pollRow.id, user_id := 2,
                 option_id := optionCRow.id } ∧
     (vote_on_poll sampleDB 2 pollRow.id optionCRow.id).2.polloptions.find?
         (fun x => x.id == optionCRow.id)
        = some { optionCRow with votes := optionCRow.votes + 1 } ∧
     (vote_on_poll sampleDB 2 pollRow.id optionCRow.id).2.pollvotes.filter
         (fun w => w.user_id == 2 && w.poll_id == pollRow.id)
        = [{ id := sampleDB.pollvote_next_id, poll_id := pollRow.id, user_id := 2,
             option_id := optionCRow.id }]) ∧
    ((vote_on_poll sampleDB 1 pollRow.id optionBRow.id).1
        = some { aliceVoteRow with option_id := optionBRow.id } ∧
     (vote_on_poll sampleDB 1 pollRow.id optionBRow.id).2.polloptions.find?
         (fun x => x.id == optionBRow.id)
        = some { optionBRow with votes := optionBRow.votes + 1 } ∧
     (vote_on_poll sampleDB 1 pollRow.id optionBRow.id).2.pollvotes.filter
         (fun w => w.user_id == 1 && w.poll_id == pollRow.id)
        = [{ aliceVoteRow with option_id := optionBRow.id }]) ∧
    ((vote_on_poll sampleDB 1 pollRow.id optionARow.id).1 = some aliceVoteRow ∧
     (vote_on_poll sampleDB 1 pollRow.id optionARow.id).2.polloptions.find?
         (fun x => x.id == optionARow.id) = some optionARow ∧
     (vote_on_poll sampleDB 1 pollRow.id optionARow.id).2.pollvotes.filter
         (fun w => w.user_id == 1 && w.poll_id == pollRow.id) = [aliceVoteRow]) := by
  refine ⟨?_, ?_, ?_⟩
  · exact (vote_no_validity_checks sampleDB 2 pollRow optionCRow optionARow aliceVoteRow
      (by decide) rfl rfl).1 rfl
  · exact (vote_no_validity_checks sampleDB 1 pollRow optionBRow optionARow aliceVoteRow
      (by decide) rfl rfl).2.1 rfl rfl rfl (by decide)
  · exact (vote_no_validity_checks sampleDB 1 pollRow optionARow optionARow aliceVoteRow
      (by decide) rfl rfl).2.2 rfl rfl

end Tonality
